import Mathlib

/-!
Shallow embedding of `src/server.js`, the PIF+AI Lookup Relay: an HTTP
server with four routes (`/`, `/health`, `/fetch-pif`, `/fetch-pif-raw`)
that proxies a spreadsheet-backed upstream endpoint and reshapes its rows.
JSON/JavaScript values are modelled by the inductive `JSVal`; each route
handler becomes a total Lean function from the upstream outcome (and the
request-scoped timestamp / elapsed time) to an HTTP response.
-/

/-- JSON/JavaScript values as handled by the relay. `jundefined` stands for
JavaScript `undefined` (an absent field or out-of-range index). -/
inductive JSVal where
  | jnull
  | jundefined
  | jbool (b : Bool)
  | jnum (n : Int)
  | jstr (s : String)
  | jarr (elems : List JSVal)
  | jobj (fields : List (String × JSVal))


/-- JavaScript truthiness: `null`, `undefined`, `false`, `0` and `""` are
falsy; every other value (including an empty array) is truthy. -/
def truthy : JSVal → Bool
  | .jnull => false
  | .jundefined => false
  | .jbool b => b
  | .jnum n => n != 0
  | .jstr s => s != ""
  | .jarr _ => true
  | .jobj _ => true

/-- Is the value an array? (`Array.isArray`). -/
def isJArr : JSVal → Bool
  | .jarr _ => true
  | _ => false

mutual

/-- JavaScript string conversion `String(v)`, as performed by
`new Error(v).message` when a non-string is thrown. -/
def jsToString : JSVal → String
  | .jnull => "null"
  | .jundefined => "undefined"
  | .jbool b => if b then "true" else "false"
  | .jnum n => toString n
  | .jstr s => s
  | .jarr xs => jsArrToString xs
  | .jobj _ => "[object Object]"
termination_by v => (sizeOf v, 0)

/-- `Array.prototype.toString`: comma-joined elements. -/
def jsArrToString : List JSVal → String
  | [] => ""
  | [x] => jsElemToString x
  | x :: xs => jsElemToString x ++ "," ++ jsArrToString xs
termination_by l => (sizeOf l, 1)

/-- Inside an array, `null` and `undefined` render as the empty string. -/
def jsElemToString : JSVal → String
  | .jnull => ""
  | .jundefined => ""
  | v => jsToString v
termination_by v => (sizeOf v, 2)

end

/-- JavaScript numeric indexing `v[i]`: arrays index their elements,
strings index their characters (code units approximated by characters),
anything else — and any out-of-range index — yields `undefined`. -/
def jsIndex : JSVal → Nat → JSVal
  | .jarr xs, i => (xs.get? i).getD .jundefined
  | .jstr s, i =>
    match s.data.get? i with
    | some c => .jstr (String.mk [c])
    | none => .jundefined
  | _, _ => .jundefined

/-- The idiom `v || ''` used by the transform: a falsy cell becomes the
empty string. -/
def orEmptyStr (v : JSVal) : JSVal := if truthy v then v else .jstr ""

/-- The row mapper of `/fetch-pif` (`server.js` lines 102-112):
`[row[0]||'', row[2]||'', row[1]||'', row[3]||'', row[3]||'']`. -/
def transformRow (row : JSVal) : JSVal :=
  .jarr [ orEmptyStr (jsIndex row 0),
          orEmptyStr (jsIndex row 2),
          orEmptyStr (jsIndex row 1),
          orEmptyStr (jsIndex row 3),
          orEmptyStr (jsIndex row 3) ]

/-- `transformedData = result.data.map(row => ...)`. -/
def transformedData (data : List JSVal) : List JSVal := data.map transformRow

/-- Length of an array value, `none` for non-arrays. -/
def jarrLen : JSVal → Option Nat
  | .jarr xs => some xs.length
  | _ => none

/-- The parsed upstream JSON envelope (`result` in `server.js`); absent
fields are `jundefined`. -/
structure FetchResult where
  success : JSVal := .jundefined
  data : JSVal := .jundefined
  error : JSVal := .jundefined


/-- Outcome of the upstream `fetch` call: either the promise rejected
(network failure / timeout), or an HTTP response arrived with a status,
a status text and a parsed JSON body. -/
inductive UpstreamResult where
  | networkError (msg : String)
  | httpResponse (status : Nat) (statusText : String) (result : FetchResult)


/-- `response.ok`: HTTP status in the 200-299 range. -/
def okStatus (status : Nat) : Bool := 200 ≤ status && status < 300

/-- An HTTP response sent by the relay: status code plus JSON body. -/
structure HttpResp where
  status : Nat
  body : JSVal


/-- Field lookup in a JSON object body. -/
def jsLookup : JSVal → String → Option JSVal
  | .jobj fields, k => fields.lookup k
  | _, _ => none

/-- The `/` handler (`server.js` lines 25-37): its `endpoints` map. -/
def rootEndpoints : JSVal :=
  .jobj [ ("health", .jstr "GET /health"),
          ("fetchPIF", .jstr "GET /fetch-pif") ]

/-- The `/` handler: always HTTP 200 with the static status body; it
takes no upstream input because it performs no upstream call. -/
def rootHandler (ts : String) : HttpResp :=
  { status := 200,
    body := .jobj [ ("status", .jstr "ok"),
                    ("timestamp", .jstr ts),
                    ("message", .jstr "PIF+AI Lookup Relay - Active"),
                    ("service", .jstr "PIF+AI Sheet Data Provider"),
                    ("endpoints", rootEndpoints) ] }

/-- The `/health` handler (`server.js` lines 39-46): always HTTP 200 with
the static status body; no upstream call. -/
def healthHandler (ts : String) : HttpResp :=
  { status := 200,
    body := .jobj [ ("status", .jstr "ok"),
                    ("service", .jstr "PIF+AI Lookup Relay"),
                    ("timestamp", .jstr ts) ] }

/-- The catch-block response of `/fetch-pif` (`server.js` lines 138-143):
HTTP 500 with `success:false`, the error message, the timestamp and the
elapsed time. -/
def fetchPifError (msg ts : String) (elapsed : Nat) : HttpResp :=
  { status := 500,
    body := .jobj [ ("success", .jbool false),
                    ("error", .jstr msg),
                    ("timestamp", .jstr ts),
                    ("elapsed", .jstr (toString elapsed ++ "ms")) ] }

/-- The `/fetch-pif` handler (`server.js` lines 51-145), as a function of
the upstream outcome, the ISO timestamp of the response and the elapsed
milliseconds. Checks in source order: thrown network error; `!response.ok`;
`!result.success`; `!result.data || !Array.isArray(result.data)` (arrays
are always truthy, so this test is exactly "data is not an array"); then
the transform and the success body. -/
def fetchPif (u : UpstreamResult) (ts : String) (elapsed : Nat) : HttpResp :=
  match u with
  | .networkError msg => fetchPifError msg ts elapsed
  | .httpResponse status statusText result =>
    if !okStatus status then
      fetchPifError ("Apps Script returned " ++ toString status ++ ": " ++ statusText)
        ts elapsed
    else if !truthy result.success then
      fetchPifError
        (if truthy result.error then jsToString result.error
         else "Apps Script returned success: false") ts elapsed
    else
      match result.data with
      | .jarr rows =>
        { status := 200,
          body := .jobj [ ("success", .jbool true),
                          ("data", .jarr (transformedData rows)),
                          ("count", .jnum (transformedData rows).length),
                          ("source", .jstr "PIF+AI Google Sheet"),
                          ("timestamp", .jstr ts),
                          ("elapsed", .jstr (toString elapsed ++ "ms")) ] }
      | _ => fetchPifError "Invalid data format from Apps Script" ts elapsed

/-- The catch-block response of `/fetch-pif-raw` (`server.js` lines
179-182): HTTP 500 with only `success:false` and the error message — no
timestamp, no elapsed field. -/
def rawError (msg : String) : HttpResp :=
  { status := 500,
    body := .jobj [ ("success", .jbool false),
                    ("error", .jstr msg) ] }

/-- The success body of `/fetch-pif-raw` (`server.js` lines 170-175). -/
def rawOk (success : JSVal) (count : Nat) (sample fullData : JSVal) : HttpResp :=
  { status := 200,
    body := .jobj [ ("success", success),
                    ("count", .jnum count),
                    ("sample", sample),
                    ("fullData", fullData) ] }

/-- The `/fetch-pif-raw` handler (`server.js` lines 149-184).
`count` is `result.data?.length || 0`, `sample` is
`result.data?.slice(0, 5) || []`, `fullData` is `result.data || []`:
arrays and strings have `length`/`slice` (an empty string is falsy, so it
falls back to `[]`), `null` and `undefined` short-circuit through `?.` to
the defaults, and calling `.slice` on any other value throws a
`TypeError` that the catch block turns into a 500 response. -/
def fetchPifRaw (u : UpstreamResult) : HttpResp :=
  match u with
  | .networkError msg => rawError msg
  | .httpResponse status _ result =>
    if !okStatus status then
      rawError ("Apps Script returned " ++ toString status)
    else
      match result.data with
      | .jarr rows => rawOk result.success rows.length (.jarr (rows.take 5)) (.jarr rows)
      | .jstr s =>
        rawOk result.success s.length
          (if s = "" then .jarr [] else .jstr (s.take 5))
          (if s = "" then .jarr [] else .jstr s)
      | .jnull => rawOk result.success 0 (.jarr []) (.jarr [])
      | .jundefined => rawOk result.success 0 (.jarr []) (.jarr [])
      | _ => rawError "result.data.slice is not a function"

/-- Shape of a `Date.prototype.toISOString` result:
`YYYY-MM-DDTHH:MM:SS.mmmZ` (24 characters). -/
def isISO8601 (s : String) : Bool :=
  match s.data with
  | [y1, y2, y3, y4, a, mo1, mo2, b, d1, d2, t, h1, h2, c, mi1, mi2, e, s1, s2, p, f1, f2, f3, z] =>
    y1.isDigit && y2.isDigit && y3.isDigit && y4.isDigit && a == '-' &&
    mo1.isDigit && mo2.isDigit && b == '-' && d1.isDigit && d2.isDigit &&
    t == 'T' && h1.isDigit && h2.isDigit && c == ':' && mi1.isDigit &&
    mi2.isDigit && e == ':' && s1.isDigit && s2.isDigit && p == '.' &&
    f1.isDigit && f2.isDigit && f3.isDigit && z == 'Z'
  | _ => false

/-- The relay row prescribed by the specification, written from its
words: `[r[0]||'', r[2]||'', r[1]||'', r[3]||'', r[3]||'']`. -/
def specRelayRow (r : JSVal) : JSVal :=
  .jarr [ orEmptyStr (jsIndex r 0),
          orEmptyStr (jsIndex r 2),
          orEmptyStr (jsIndex r 1),
          orEmptyStr (jsIndex r 3),
          orEmptyStr (jsIndex r 3) ]

/-- C1: for every upstream row `r`, the relay row produced by the
`/fetch-pif` transform equals the spec's
`[r[0]||'', r[2]||'', r[1]||'', r[3]||'', r[3]||'']`, each cell read by
source position (0, 2, 1, 3, 3) with falsy cells replaced by the empty
string; consequently output indices 3 and 4 are always equal. -/
theorem transformRow_matches_spec (r : JSVal) :
    transformRow r = specRelayRow r ∧
    jsIndex (transformRow r) 0 = orEmptyStr (jsIndex r 0) ∧
    jsIndex (transformRow r) 1 = orEmptyStr (jsIndex r 2) ∧
    jsIndex (transformRow r) 2 = orEmptyStr (jsIndex r 1) ∧
    jsIndex (transformRow r) 3 = orEmptyStr (jsIndex r 3) ∧
    jsIndex (transformRow r) 4 = orEmptyStr (jsIndex r 3) ∧
    jsIndex (transformRow r) 3 = jsIndex (transformRow r) 4 :=
  ⟨rfl, rfl, rfl, rfl, rfl, rfl, rfl⟩

/-- C2: whenever the upstream envelope arrives with an OK HTTP status,
truthy `success` and an array `data`, `/fetch-pif` responds HTTP 200 with
`success:true`, the transformed rows, `count` equal to the data length,
the source label, the timestamp and the elapsed time. -/
theorem fetchPif_success_response (status : Nat) (st ts : String) (elapsed : Nat)
    (success err : JSVal) (rows : List JSVal)
    (hok : okStatus status = true) (hs : truthy success = true) :
    fetchPif (.httpResponse status st ⟨success, .jarr rows, err⟩) ts elapsed =
      { status := 200,
        body := .jobj [ ("success", .jbool true),
                        ("data", .jarr (transformedData rows)),
                        ("count", .jnum (transformedData rows).length),
                        ("source", .jstr "PIF+AI Google Sheet"),
                        ("timestamp", .jstr ts),
                        ("elapsed", .jstr (toString elapsed ++ "ms")) ] } ∧
    (transformedData rows).length = rows.length := by
  refine ⟨?_, by simp [transformedData]⟩
  simp [fetchPif, hok, hs]

/-- C2 witness: the spec's concrete example, evaluated. -/
theorem fetchPif_success_response_witness :
    fetchPif
        (.httpResponse 200 "OK"
          ⟨.jbool true, .jarr [.jarr [.jstr "x", .jstr "SYM", .jstr "Name", .jstr "4.5"]],
            .jundefined⟩)
        "2026-10-12T08:30:15.123Z" 5 =
      { status := 200,
        body := .jobj [ ("success", .jbool true),
                        ("data", .jarr [.jarr [.jstr "x", .jstr "Name", .jstr "SYM",
                                               .jstr "4.5", .jstr "4.5"]]),
                        ("count", .jnum 1),
                        ("source", .jstr "PIF+AI Google Sheet"),
                        ("timestamp", .jstr "2026-10-12T08:30:15.123Z"),
                        ("elapsed", .jstr "5ms") ] } := by
  have h := fetchPif_success_response 200 "OK" "2026-10-12T08:30:15.123Z" 5
    (.jbool true) .jundefined [.jarr [.jstr "x", .jstr "SYM", .jstr "Name", .jstr "4.5"]]
    rfl rfl
  exact h.1.trans (by rfl)

/-- C3: with an OK upstream status, a falsy `success` flag fails the
request with the upstream-supplied error message (or the generic one when
the error field is falsy/absent), and a non-array `data` fails it with
the invalid-format message; both produce the HTTP 500 error body with
`success:false` and that error string. -/
theorem fetchPif_envelope_failure :
    (∀ (status : Nat) (st ts : String) (elapsed : Nat) (res : FetchResult),
      okStatus status = true → truthy res.success = false →
      fetchPif (.httpResponse status st res) ts elapsed =
        fetchPifError
          (if truthy res.error then jsToString res.error
           else "Apps Script returned success: false") ts elapsed) ∧
    (∀ (status : Nat) (st ts : String) (elapsed : Nat) (success err data : JSVal),
      okStatus status = true → truthy success = true → isJArr data = false →
      fetchPif (.httpResponse status st ⟨success, data, err⟩) ts elapsed =
        fetchPifError "Invalid data format from Apps Script" ts elapsed) ∧
    (∀ (msg ts : String) (elapsed : Nat),
      (fetchPifError msg ts elapsed).status = 500 ∧
      jsLookup (fetchPifError msg ts elapsed).body "success" = some (.jbool false) ∧
      jsLookup (fetchPifError msg ts elapsed).body "error" = some (.jstr msg)) := by
  refine ⟨?_, ?_, ?_⟩
  · intro status st ts elapsed res h1 h2
    simp [fetchPif, h1, h2]
  · intro status st ts elapsed success err data h1 h2 h3
    cases data <;> simp_all [fetchPif, isJArr]
  · intro msg ts elapsed
    exact ⟨rfl, rfl, rfl⟩

/-- C3 witness: the spec's two concrete failure examples, evaluated. -/
theorem fetchPif_envelope_failure_witness :
    fetchPif (.httpResponse 200 "OK" ⟨.jbool false, .jundefined, .jstr "quota exceeded"⟩)
        "2026-10-12T08:30:15.123Z" 7 =
      fetchPifError "quota exceeded" "2026-10-12T08:30:15.123Z" 7 ∧
    fetchPif (.httpResponse 200 "OK" ⟨.jbool true, .jstr "not-an-array", .jundefined⟩)
        "2026-10-12T08:30:15.123Z" 7 =
      fetchPifError "Invalid data format from Apps Script" "2026-10-12T08:30:15.123Z" 7 ∧
    (fetchPifError "quota exceeded" "2026-10-12T08:30:15.123Z" 7).status = 500 := by
  refine ⟨?_, ?_, ?_⟩
  · have h := fetchPif_envelope_failure.1 200 "OK" "2026-10-12T08:30:15.123Z" 7
      ⟨.jbool false, .jundefined, .jstr "quota exceeded"⟩ rfl rfl
    rw [h]
    simp [truthy, jsToString]
  · exact fetchPif_envelope_failure.2.1 200 "OK" "2026-10-12T08:30:15.123Z" 7
      (.jbool true) .jundefined (.jstr "not-an-array") rfl rfl rfl
  · exact (fetchPif_envelope_failure.2.2 "quota exceeded" "2026-10-12T08:30:15.123Z" 7).1

/-- C4: whenever the upstream HTTP status is outside the success range,
`/fetch-pif` responds with the HTTP 500 error body whose error string
carries the numeric status and the status text (so it mentions the
status). -/
theorem fetchPif_http_error (status : Nat) (st ts : String) (elapsed : Nat)
    (res : FetchResult) (hbad : okStatus status = false) :
    fetchPif (.httpResponse status st res) ts elapsed =
      fetchPifError ("Apps Script returned " ++ toString status ++ ": " ++ st) ts elapsed ∧
    ∃ s1 s2 : String,
      "Apps Script returned " ++ toString status ++ ": " ++ st =
        s1 ++ toString status ++ s2 := by
  refine ⟨by simp [fetchPif, hbad], "Apps Script returned ", ": " ++ st, ?_⟩
  rw [String.append_assoc]

/-- C4 witness: the spec's 503 example, evaluated. -/
theorem fetchPif_http_error_witness :
    fetchPif (.httpResponse 503 "Service Unavailable" ⟨.jbool true, .jarr [], .jundefined⟩)
        "2026-10-12T08:30:15.123Z" 3 =
      fetchPifError "Apps Script returned 503: Service Unavailable"
        "2026-10-12T08:30:15.123Z" 3 := by
  have h := fetchPif_http_error 503 "Service Unavailable" "2026-10-12T08:30:15.123Z" 3
    ⟨.jbool true, .jarr [], .jundefined⟩ rfl
  exact h.1.trans (by rfl)

/-- C5: with an OK upstream HTTP status, `/fetch-pif-raw` responds HTTP
200 echoing the upstream `success` flag unchanged, with `count` the data
length (or 0 when data is absent), `sample` the first 5 rows (or empty),
and `fullData` all rows unmodified — no column reordering — so for at
most 5 rows `sample` and `fullData` both equal the upstream data. -/
theorem fetchPifRaw_ok_response :
    (∀ (status : Nat) (st : String) (success err : JSVal) (rows : List JSVal),
      okStatus status = true →
      fetchPifRaw (.httpResponse status st ⟨success, .jarr rows, err⟩) =
        rawOk success rows.length (.jarr (rows.take 5)) (.jarr rows)) ∧
    (∀ (status : Nat) (st : String) (success err : JSVal),
      okStatus status = true →
      fetchPifRaw (.httpResponse status st ⟨success, .jundefined, err⟩) =
        rawOk success 0 (.jarr []) (.jarr [])) ∧
    (∀ rows : List JSVal, rows.length ≤ 5 → rows.take 5 = rows) ∧
    (∀ (success sample fullData : JSVal) (count : Nat),
      (rawOk success count sample fullData).status = 200 ∧
      jsLookup (rawOk success count sample fullData).body "success" = some success ∧
      jsLookup (rawOk success count sample fullData).body "count" = some (.jnum count) ∧
      jsLookup (rawOk success count sample fullData).body "sample" = some sample ∧
      jsLookup (rawOk success count sample fullData).body "fullData" = some fullData) := by
  refine ⟨?_, ?_, ?_, ?_⟩
  · intro status st success err rows h
    simp [fetchPifRaw, h]
  · intro status st success err h
    simp [fetchPifRaw, h]
  · intro rows h
    exact List.take_of_length_le h
  · intro success sample fullData count
    exact ⟨rfl, rfl, rfl, rfl, rfl⟩

/-- C5 witness: the spec's concrete payload, evaluated on the raw route:
sample and fullData both equal the unmodified upstream data. -/
theorem fetchPifRaw_ok_response_witness :
    fetchPifRaw
        (.httpResponse 200 "OK"
          ⟨.jbool true, .jarr [.jarr [.jstr "x", .jstr "SYM", .jstr "Name", .jstr "4.5"]],
            .jundefined⟩) =
      rawOk (.jbool true) 1
        (.jarr [.jarr [.jstr "x", .jstr "SYM", .jstr "Name", .jstr "4.5"]])
        (.jarr [.jarr [.jstr "x", .jstr "SYM", .jstr "Name", .jstr "4.5"]]) ∧
    [JSVal.jarr [.jstr "x", .jstr "SYM", .jstr "Name", .jstr "4.5"]].take 5 =
      [JSVal.jarr [.jstr "x", .jstr "SYM", .jstr "Name", .jstr "4.5"]] := by
  have h := fetchPifRaw_ok_response.1 200 "OK" (.jbool true) .jundefined
    [.jarr [.jstr "x", .jstr "SYM", .jstr "Name", .jstr "4.5"]] rfl
  have ht := fetchPifRaw_ok_response.2.2.1
    [JSVal.jarr [.jstr "x", .jstr "SYM", .jstr "Name", .jstr "4.5"]] (by decide)
  exact ⟨h.trans (by rw [ht]; rfl), ht⟩

/-- C6 counterexample: a JSON response of the service with no timestamp
field — the `/fetch-pif-raw` success body on the spec's own payload is
HTTP 200 yet carries no `timestamp` key, refuting the claim that every
JSON response of the service includes one. -/
theorem fetchPifRaw_timestamp_cex :
    (fetchPifRaw (.httpResponse 200 "OK"
        ⟨.jbool true, .jarr [.jarr [.jstr "x", .jstr "SYM", .jstr "Name", .jstr "4.5"]],
          .jundefined⟩)).status = 200 ∧
    jsLookup (fetchPifRaw (.httpResponse 200 "OK"
        ⟨.jbool true, .jarr [.jarr [.jstr "x", .jstr "SYM", .jstr "Name", .jstr "4.5"]],
          .jundefined⟩)).body "timestamp" = none :=
  ⟨rfl, rfl⟩

/-- C6 amended: every JSON response on `/`, `/health` and `/fetch-pif`
(success and failure alike) carries a `timestamp` field holding the
request's ISO-8601 clock string; `/fetch-pif-raw` responses carry no
timestamp field at all. -/
theorem responses_timestamp_amended :
    (∀ (ts : String) (elapsed : Nat) (u : UpstreamResult), isISO8601 ts = true →
      jsLookup (rootHandler ts).body "timestamp" = some (.jstr ts) ∧
      jsLookup (healthHandler ts).body "timestamp" = some (.jstr ts) ∧
      jsLookup (fetchPif u ts elapsed).body "timestamp" = some (.jstr ts) ∧
      isISO8601 ts = true) ∧
    (∀ u : UpstreamResult, jsLookup (fetchPifRaw u).body "timestamp" = none) := by
  constructor
  · intro ts elapsed u hts
    refine ⟨rfl, rfl, ?_, hts⟩
    cases u with
    | networkError msg => rfl
    | httpResponse status st res =>
      simp only [fetchPif]
      split
      · rfl
      · split
        · rfl
        · split <;> rfl
  · intro u
    cases u with
    | networkError msg => rfl
    | httpResponse status st res =>
      simp only [fetchPifRaw]
      split
      · rfl
      · split <;> rfl

/-- C6 witness: a concrete well-formed timestamp carried by a concrete
`/fetch-pif` response. -/
theorem responses_timestamp_amended_witness :
    isISO8601 "2026-10-12T08:30:15.123Z" = true ∧
    jsLookup (fetchPif (.networkError "fetch failed") "2026-10-12T08:30:15.123Z" 21).body
        "timestamp" = some (.jstr "2026-10-12T08:30:15.123Z") := by
  have h := responses_timestamp_amended.1 "2026-10-12T08:30:15.123Z" 21
    (.networkError "fetch failed") (by decide)
  exact ⟨h.2.2.2, h.2.2.1⟩

/-- C7 counterexample: the `/fetch-pif-raw` error response is HTTP 500
but its body has neither a `timestamp` nor an `elapsed` field, refuting
the claim that both data routes share the uniform four-field error
body. -/
theorem fetchPifRaw_error_body_cex :
    (fetchPifRaw (.networkError "socket hang up")).status = 500 ∧
    jsLookup (fetchPifRaw (.networkError "socket hang up")).body "timestamp" = none ∧
    jsLookup (fetchPifRaw (.networkError "socket hang up")).body "elapsed" = none :=
  ⟨rfl, rfl, rfl⟩

/-- C7 amended: every error on a data route is caught at the route
boundary — each handler is a total function whose status is always 200
or 500, and every non-200 response is exactly the route's catch-block
body: `{success:false, error, timestamp, elapsed}` on `/fetch-pif`, and
`{success:false, error}` (no timestamp, no elapsed) on
`/fetch-pif-raw`. -/
theorem error_responses_amended :
    (∀ (u : UpstreamResult) (ts : String) (elapsed : Nat),
      (fetchPif u ts elapsed).status = 200 ∨ (fetchPif u ts elapsed).status = 500) ∧
    (∀ (u : UpstreamResult) (ts : String) (elapsed : Nat),
      (fetchPif u ts elapsed).status ≠ 200 →
      ∃ msg, fetchPif u ts elapsed = fetchPifError msg ts elapsed) ∧
    (∀ u : UpstreamResult,
      (fetchPifRaw u).status = 200 ∨ (fetchPifRaw u).status = 500) ∧
    (∀ u : UpstreamResult, (fetchPifRaw u).status ≠ 200 →
      ∃ msg, fetchPifRaw u = rawError msg) ∧
    (∀ (msg ts : String) (elapsed : Nat),
      (fetchPifError msg ts elapsed).status = 500 ∧
      jsLookup (fetchPifError msg ts elapsed).body "success" = some (.jbool false) ∧
      jsLookup (fetchPifError msg ts elapsed).body "error" = some (.jstr msg) ∧
      jsLookup (fetchPifError msg ts elapsed).body "timestamp" = some (.jstr ts) ∧
      jsLookup (fetchPifError msg ts elapsed).body "elapsed" =
        some (.jstr (toString elapsed ++ "ms"))) ∧
    (∀ msg : String,
      (rawError msg).status = 500 ∧
      jsLookup (rawError msg).body "success" = some (.jbool false) ∧
      jsLookup (rawError msg).body "error" = some (.jstr msg) ∧
      jsLookup (rawError msg).body "timestamp" = none ∧
      jsLookup (rawError msg).body "elapsed" = none) := by
  refine ⟨?_, ?_, ?_, ?_, ?_, ?_⟩
  · intro u ts elapsed
    cases u with
    | networkError msg => right; rfl
    | httpResponse status st res =>
      simp only [fetchPif]
      split
      · right; rfl
      · split
        · right; rfl
        · split
          · left; rfl
          all_goals right; rfl
  · intro u ts elapsed hne
    cases u with
    | networkError msg => exact ⟨msg, rfl⟩
    | httpResponse status st res =>
      revert hne
      simp only [fetchPif]
      split
      · intro h2; exact ⟨_, rfl⟩
      · split
        · intro h2; exact ⟨_, rfl⟩
        · split
          · intro h2; exact absurd rfl h2
          all_goals intro h2; exact ⟨_, rfl⟩
  · intro u
    cases u with
    | networkError msg => right; rfl
    | httpResponse status st res =>
      simp only [fetchPifRaw]
      split
      · right; rfl
      · split
        any_goals left; rfl
        all_goals right; rfl
  · intro u hne
    cases u with
    | networkError msg => exact ⟨msg, rfl⟩
    | httpResponse status st res =>
      revert hne
      simp only [fetchPifRaw]
      split
      · intro h2; exact ⟨_, rfl⟩
      · split
        any_goals intro h2; exact absurd rfl h2
        all_goals intro h2; exact ⟨_, rfl⟩
  · intro msg ts elapsed
    exact ⟨rfl, rfl, rfl, rfl, rfl⟩
  · intro msg
    exact ⟨rfl, rfl, rfl, rfl, rfl⟩

/-- C7 witness: a concrete failing upstream call on each data route,
with the non-200 hypothesis discharged concretely. -/
theorem error_responses_amended_witness :
    (fetchPif (.networkError "socket hang up") "2026-10-12T08:30:15.123Z" 2).status ≠ 200 ∧
    (∃ msg, fetchPif (.networkError "socket hang up") "2026-10-12T08:30:15.123Z" 2 =
      fetchPifError msg "2026-10-12T08:30:15.123Z" 2) ∧
    (fetchPifRaw (.networkError "socket hang up")).status ≠ 200 ∧
    (∃ msg, fetchPifRaw (.networkError "socket hang up") = rawError msg) := by
  refine ⟨by decide, ?_, by decide, ?_⟩
  · exact error_responses_amended.2.1 (.networkError "socket hang up")
      "2026-10-12T08:30:15.123Z" 2 (by decide)
  · exact error_responses_amended.2.2.2.1 (.networkError "socket hang up") (by decide)

/-- C8: `GET /` and `GET /health` always respond HTTP 200 with the fixed
status token "ok", a service name and the current timestamp, and `/`
additionally carries the endpoints map while `/health` does not; both
handlers are functions of the clock alone — they take no upstream input,
so they succeed regardless of upstream reachability. -/
theorem health_routes_static (ts : String) :
    (rootHandler ts).status = 200 ∧
    jsLookup (rootHandler ts).body "status" = some (.jstr "ok") ∧
    jsLookup (rootHandler ts).body "service" = some (.jstr "PIF+AI Sheet Data Provider") ∧
    jsLookup (rootHandler ts).body "timestamp" = some (.jstr ts) ∧
    jsLookup (rootHandler ts).body "endpoints" =
      some (.jobj [ ("health", .jstr "GET /health"),
                    ("fetchPIF", .jstr "GET /fetch-pif") ]) ∧
    (healthHandler ts).status = 200 ∧
    jsLookup (healthHandler ts).body "status" = some (.jstr "ok") ∧
    jsLookup (healthHandler ts).body "service" = some (.jstr "PIF+AI Lookup Relay") ∧
    jsLookup (healthHandler ts).body "timestamp" = some (.jstr ts) ∧
    jsLookup (healthHandler ts).body "endpoints" = none :=
  ⟨rfl, rfl, rfl, rfl, rfl, rfl, rfl, rfl, rfl, rfl⟩

/-- C9: the `/fetch-pif` transform is total over rows of any length —
every relay row has exactly 5 cells, and any out-of-range index access
reads `undefined` and is replaced by the empty string rather than
raising an error. -/
theorem transformRow_total :
    (∀ v : JSVal, jarrLen (transformRow v) = some 5) ∧
    (∀ (r : List JSVal) (i : Nat), r.length ≤ i →
      jsIndex (.jarr r) i = .jundefined ∧
      orEmptyStr (jsIndex (.jarr r) i) = .jstr "") := by
  constructor
  · intro v; rfl
  · intro r i h
    have hg : r[i]? = none := by
      rw [← List.get?_eq_getElem?]
      exact List.get?_eq_none.mpr h
    constructor
    · simp [jsIndex, hg]
    · simp [jsIndex, hg, orEmptyStr, truthy]

/-- C9 witness: a one-cell row still yields a 5-cell relay row, and its
out-of-range cell 3 becomes the empty string. -/
theorem transformRow_total_witness :
    [JSVal.jstr "x"].length ≤ 3 ∧
    jarrLen (transformRow (.jarr [.jstr "x"])) = some 5 ∧
    orEmptyStr (jsIndex (.jarr [.jstr "x"]) 3) = .jstr "" := by
  refine ⟨by decide, transformRow_total.1 _, (transformRow_total.2 [.jstr "x"] 3 (by decide)).2⟩

/-- C10: an upstream envelope with `success:true` and an empty data
array is not a failure: `/fetch-pif` responds HTTP 200 with
`success:true`, an empty data array and count 0. -/
theorem fetchPif_empty_data (ts : String) (elapsed : Nat) :
    fetchPif (.httpResponse 200 "OK" ⟨.jbool true, .jarr [], .jundefined⟩) ts elapsed =
      { status := 200,
        body := .jobj [ ("success", .jbool true),
                        ("data", .jarr []),
                        ("count", .jnum 0),
                        ("source", .jstr "PIF+AI Google Sheet"),
                        ("timestamp", .jstr ts),
                        ("elapsed", .jstr (toString elapsed ++ "ms")) ] } :=
  rfl
